import Mathlib

/- Shallow embedding of src/src/main.rs, a small axum web server for a
   facilitated voting game ("Корпокликер").

   The whole mutable state lives in one `AppState` behind `Arc<Mutex<_>>`
   (type `Shared`); every handler locks the mutex at its first line and holds
   the guard for its whole body, so each handler body is a single state
   transition.  We model every handler as a pure function
   `AppState → AppState × Response` (read-only handlers return only the
   response).  Rust `u64` counters are modelled as `Nat`: `u64` overflow is a
   checked arithmetic error in Rust (`+= 1` panics on overflow in debug
   builds), not wrap-around semantics the program relies on. -/

namespace Game

/-- Rust enum `Reaction { Lie, Delay, Freeze }` (declaration order gives the
discriminants 0, 1, 2). -/
inductive Reaction where
  | Lie
  | Delay
  | Freeze
deriving DecidableEq, Repr

/-- The Rust discriminant of the variant, as read by `as u8` in
`ordered_tuple`. -/
def Reaction.toU8 : Reaction → Nat
  | .Lie => 0
  | .Delay => 1
  | .Freeze => 2

/-- Rust `Reaction::from_str`: a `match` on string literals, i.e. sequential
case-sensitive equality tests against "lie", "delay", "freeze". -/
def Reaction.from_str (s : String) : Option Reaction :=
  if s = "lie" then some .Lie
  else if s = "delay" then some .Delay
  else if s = "freeze" then some .Freeze
  else none

/-- Rust `struct Situation`.  The `HashMap<(Reaction, Reaction), String>` is
modelled as an association list; `make_answers` inserts exactly three distinct
keys, so lookup order is irrelevant. -/
structure Situation where
  title : String
  description : String
  answers : List ((Reaction × Reaction) × String)
deriving DecidableEq

/-- Lookup in the modelled `HashMap` (Rust `situation.answers.get(&key)`). -/
def answersGet (m : List ((Reaction × Reaction) × String))
    (k : Reaction × Reaction) : Option String :=
  (m.find? (fun p => decide (p.1 = k))).map Prod.snd

/-- Rust `counts: [u64; 3]`, with the source comment `// [lie, delay, freeze]`:
index 0 is lie, 1 is delay, 2 is freeze. -/
structure Tally where
  lie : Nat
  delay : Nat
  freeze : Nat
deriving DecidableEq

/-- Rust `struct ShownResult`. -/
structure ShownResult where
  situation_title : String
  answer : String
  counts : Tally
  version : Nat
deriving DecidableEq

/-- Rust `struct AppState`. -/
structure AppState where
  situations : List Situation
  current_index : Nat
  counts : Tally
  last_result : Option ShownResult
  result_version : Nat

/-- Rust `fn idx_to_reaction`. -/
def idx_to_reaction (i : Nat) : Reaction :=
  match i with
  | 0 => .Lie
  | 1 => .Delay
  | _ => .Freeze

/-- Rust `fn ordered_tuple`: sorts the two reactions by discriminant. -/
def ordered_tuple (a b : Reaction) : Reaction × Reaction :=
  if a.toU8 ≤ b.toU8 then (a, b) else (b, a)

/-- Rust sorts `vec![(counts[0],0), (counts[1],1), (counts[2],2)]` with
`sort_by(|a, b| b.0.cmp(&a.0))`: a stable sort, descending by count.  On
pairs tagged with their distinct original indices, a stable descending sort
by count is exactly a sort by the total order "count descending, then
original index ascending", which this relation expresses. -/
def pairBefore (x y : Nat × Nat) : Prop :=
  y.1 < x.1 ∨ (x.1 = y.1 ∧ x.2 ≤ y.2)

instance : DecidableRel pairBefore := fun x y =>
  inferInstanceAs (Decidable (y.1 < x.1 ∨ (x.1 = y.1 ∧ x.2 ≤ y.2)))

instance : IsTotal (Nat × Nat) pairBefore :=
  ⟨by intro a b; simp only [pairBefore]; omega⟩

instance : IsTrans (Nat × Nat) pairBefore :=
  ⟨by intro a b c; simp only [pairBefore]; omega⟩

/-- The sort performed inside Rust `fn top_two`. -/
def sortPairs (l : List (Nat × Nat)) : List (Nat × Nat) :=
  List.insertionSort pairBefore l

/-- The `(count, index)` vector built inside Rust `fn top_two`. -/
def tallyPairs (counts : Tally) : List (Nat × Nat) :=
  [(counts.lie, 0), (counts.delay, 1), (counts.freeze, 2)]

/-- Rust `fn top_two`.  The sorted list always has length 3, so the `getD`
defaults are unreachable (Rust indexes `pairs[0]`, `pairs[1]` directly). -/
def top_two (counts : Tally) : Reaction × Reaction :=
  let pairs := sortPairs (tallyPairs counts)
  (idx_to_reaction (pairs.getD 0 (0, 0)).2, idx_to_reaction (pairs.getD 1 (0, 0)).2)

/-- Rust `struct ClickResponse`. -/
structure ClickResponse where
  ok : Bool
deriving DecidableEq

/-- Rust `struct CurrentSituationResponse`. -/
structure CurrentSituationResponse where
  title : String
  description : String
deriving DecidableEq

/-- Out-of-bounds catalog indexing panics in Rust; we model
`st.situations[st.current_index]` as `getD` with this (unreachable, see the
index invariant) default. -/
def dfltSituation : Situation :=
  { title := "", description := "", answers := [] }

/-- Rust handler `get_current_situation` (route `GET /api/current`): read-only
projection of the situation at `current_index`. -/
def get_current_situation (st : AppState) : CurrentSituationResponse :=
  let s := st.situations.getD st.current_index dfltSituation
  { title := s.title, description := s.description }

/-- Rust handler `post_click` (route `POST /api/click`): `if let Some(r) =
Reaction::from_str(..)` increments the matching counter; otherwise nothing
happens; either way the response is `ClickResponse { ok: true }`. -/
def post_click (st : AppState) (reaction : String) : AppState × ClickResponse :=
  let st' :=
    match Reaction.from_str reaction with
    | some .Lie => { st with counts := { st.counts with lie := st.counts.lie + 1 } }
    | some .Delay => { st with counts := { st.counts with delay := st.counts.delay + 1 } }
    | some .Freeze => { st with counts := { st.counts with freeze := st.counts.freeze + 1 } }
    | none => st
  (st', { ok := true })

/-- The fallback string of `unwrap_or_else` in `admin_show`. -/
def sentinel : String := "Ответ не найден для этой комбинации"

/-- Rust handler `admin_show` (route `GET /admin/show`): the reveal.  Reads the
current situation and the tally, resolves the top-two pair, looks up the
answer (sentinel on a miss), bumps `result_version`, stores the new
`ShownResult` as `last_result`, and returns it. -/
def admin_show (st : AppState) : AppState × ShownResult :=
  let situation := st.situations.getD st.current_index dfltSituation
  let rr := top_two st.counts
  let key := ordered_tuple rr.1 rr.2
  let answer := (answersGet situation.answers key).getD sentinel
  let shown : ShownResult :=
    { situation_title := situation.title
      answer := answer
      counts := st.counts
      version := st.result_version + 1 }
  ({ st with result_version := st.result_version + 1, last_result := some shown }, shown)

/-- Rust handler `get_result_for_players` (route `GET /api/result`): read-only. -/
def get_result_for_players (st : AppState) : Option ShownResult :=
  st.last_result

/-- Rust handler `admin_next` (route `POST /admin/next`). -/
def admin_next (st : AppState) : AppState × ClickResponse :=
  ({ st with
      current_index := (st.current_index + 1) % st.situations.length
      counts := { lie := 0, delay := 0, freeze := 0 }
      last_result := none },
   { ok := true })

/-- Rust handler `admin_reset` (route `POST /admin/reset`). -/
def admin_reset (st : AppState) : AppState × ClickResponse :=
  ({ st with
      counts := { lie := 0, delay := 0, freeze := 0 }
      last_result := none },
   { ok := true })

/-- Rust `fn make_answers`: inserts the three canonical ordered keys into a
fresh map. -/
def make_answers (lie_delay lie_freeze delay_freeze : String) :
    List ((Reaction × Reaction) × String) :=
  [ (ordered_tuple .Lie .Delay, lie_delay)
  , (ordered_tuple .Lie .Freeze, lie_freeze)
  , (ordered_tuple .Delay .Freeze, delay_freeze) ]

/-- Rust `fn build_situations`: the fixed catalog authored in the source, 15
situations in order. -/
def build_situations : List Situation :=
  [ { title := "Почему ретро перенесли?"
      description := "Команда интересуется, почему ежедневная встреча испарилась..."
      answers := make_answers
        "Мы хотели, чтобы всем было удобно подключиться, поэтому слегка сдвинули. Чуть позже уточним финальное время."
        "Там образовался важный созвон, пришлось подвигать. Не закапываемся, идём по текущему расписанию."
        "Время ещё финалится на уровне выше. Пока работаем так, без обсуждения. (что бы это не значило...)" }
  , { title := "Почему в джире опять другие приоритеты?"
      description := "Разработчики видят, что задачи снова переприоритизировали..."
      answers := make_answers
        "Это не смена приоритета, мы просто уточнили бизнес-цели. Позже вышлю роадмап."
        "Так и планировалось, просто вы пока не видите полный контекст. Берём то, что есть."
        "Это сейчас решается выше. Как скажут - так и возьмём, возвращаться не будем." }
  , { title := "Можно нормальные требования сразу, а не по кусочкам?"
      description := "Команда хочет цельное ТЗ..."
      answers := make_answers
        "Они есть, мы их доупаковываем для вас. Как только согласуем - пришлю цельный вариант."
        "Это практически финальная версия, но у нас вчера был напряжённый релиз, поэтому не всё прошло гладко."
        "Сейчас не до этого, у нас важный хотфикс. Как стабилизируемся - оформим и вернёмся." }
  , { title := "Зачем ещё один созвон по тому же вопросу?"
      description := "Коллеги не рады приглашению на повторную встречу..."
      answers := make_answers
        "Появилась новая информация, надо быстро всех синхронизировать. Детали позже."
        "Это был изначально контрольный созвон. Просто отметимся и дальше."
        "Так решили сверху. Проводим и не обсуждаем." }
  , { title := "Почему у нас нет нормальной документации?"
      description := "Классическая боль по докам..."
      answers := make_answers
        "Документация ведётся, просто не у всех есть доступ к ней. Уточню, когда выкатят."
        "Документация есть в рабочем виде. Сейчас это вторично."
        "Фокус не на этом. Как будут ресурсы - сделаем." }
  , { title := "Когда будет зарплата за этот месяц?"
      description := "Самый ожидаемый вопрос..."
      answers := make_answers
        "Платёж уже ушёл, деньги в пути. Если до конца недели не придут - дёрнем ещё раз."
        "Она заложена, просто сейчас задержка на стороне бухгалтерии или банка. Не останавливаемся, работаем."
        "Точной даты сейчас не дадим. Как только будет финал - сообщим единым сообщением." }
  , { title := "Почему нам не сказали заранее про сдвиг выплат?"
      description := "Коммуникация зап@зд?ла..."
      answers := make_answers
        "Мы сами узнали в последний момент и не хотели дезинформировать. В следующий раз предупредим раньше."
        "Информация была, но в рабочем виде. Сейчас не копаемся, идём дальше."
        "Коммуникацию улучшим. Пока фиксируем, что так случилось." }
  , { title := "Когда нормальный тимбилдинг, а не \x60пицца дома\x60?"
      description := "И рыбку съесть, и пиццу тоже..."
      answers := make_answers
        "Мы как раз обсуждаем формат, чтобы всем зашло. Чуть позже скинем варианты."
        "Корпоратив заложен, просто сейчас не время раскрывать детали. Не спойлерим."
        "Сначала стабилизируемся по выплатам, потом развлечения. Тему пока откладываем." }
  , { title := "А можно нам мерч, чтобы хоть что-то материальное от компании было?"
      description := "А зачем мерч если айтышники только дома сидят..."
      answers := make_answers
        "Мерч уже в проработке, ищем подрядчика. Чуть позже соберём размеры."
        "Мерч - часть HR-стратегии, он не отменён. Сейчас не отвлекаемся от задач."
        "Пока приоритет не на этом. Вернёмся к мерчу, когда будет окно." }
  , { title := "Почему вы нанимаете людей, если зарплаты задерживаются?"
      description := "Про странный приоритет, значитс..."
      answers := make_answers
        "Это разные бюджеты, они не пересекаются. Позже расскажем структуру затрат."
        "Набор - часть стратегии роста. Не смешиваем это с выплатами."
        "Этим занимается другой отдел. В общем финобновлении будет ответ." }
  , { title := "Компания вообще жива? Нас не закрывают?"
      description := "Панический вопрос!.!"
      answers := make_answers
        "Компания в норме, мы просто в перестройке. Чуть позже покажем все цифры."
        "У нас всё под контролем, вы видите только часть. Не паникуем, работаем."
        "Эту тему сейчас не поднимаем. Будет официальный апдейт - получите." }
  , { title := "Почему \x27последний раз задержка\x27 уже третий раз?"
      description := "Тоторо... Тоторо..."
      answers := make_answers
        "Первые кейсы были внешними. Сейчас выходим на стабильность, позже дам подтверждение."
        "Мы говорили про те конкретные случаи, этот - другой. Не смешиваем."
        "Сейчас не копаемся в формулировках. Важно, что двигаемся к нормальному циклу." }
  , { title := "А нас когда уже заменит ИИ, чтобы он получал задержанную зарплату вместо нас?"
      description := "Кстати, да..."
      answers := make_answers
        "Мы уже исследуем AI-направление, но людей оно не заменяет. Позже расскажем, как будем использовать."
        "ИИ - это доп-инструмент, а не замена. Сейчас не уходим в эту тему."
        "Это не приоритет сейчас. Как будет стратегия по AI - презентуем." }
  , { title := "Почему у Пети MacBook новый, а у меня вентилятор взлетает от гугл-мита?"
      description := "У пети просто лицензи на огнестрел есть..."
      answers := make_answers
        "Это был тест рабочего устройства, мы ещё будем раздавать. Чуть позже уточним по технике."
        "Это под конкретные задачи. Сейчас не будем сравнивать железо."
        "Сначала закрываем рабочие вопросы. Обновление техники обсудим отдельно." }
  , { title := "Если всё хорошо, почему вы не показываете цифры?"
      description := "Вот именно, что цифры..."
      answers := make_answers
        "Мы как раз готовим прозрачный отчёт. Дайте время, чтобы он был корректным."
        "Цифры положительные, просто они внутренняя инфа. Сейчас не тот формат."
        "Финансовая инфа будет в официальном канале. Пока тему закрываем." }
  ]

/-- The state constructed in Rust `main` before serving. -/
def initState : AppState :=
  { situations := build_situations
    current_index := 0
    counts := { lie := 0, delay := 0, freeze := 0 }
    last_result := none
    result_version := 0 }

/-- Folding a list of vote tokens through `post_click` (one HTTP request per
element, served in list order). -/
def applyClicks (st : AppState) (tokens : List String) : AppState :=
  tokens.foldl (fun s t => (post_click s t).1) st

/-- One serialized operation on the shared state: each constructor is one
handler body executed under the mutex.  The two read-only handlers leave the
state unchanged. -/
inductive Step : AppState → AppState → Prop where
  | click (st : AppState) (t : String) : Step st (post_click st t).1
  | reveal (st : AppState) : Step st (admin_show st).1
  | poll (st : AppState) : Step st st
  | current (st : AppState) : Step st st
  | next (st : AppState) : Step st (admin_next st).1
  | reset (st : AppState) : Step st (admin_reset st).1

/-- The catalog-indexing invariant: `current_index` is a valid index into
`situations`. -/
def IndexInv (st : AppState) : Prop :=
  st.current_index < st.situations.length

/-- The three canonical unordered pairs of distinct strategies, in their
ordered-key form. -/
def canonicalPairs : List (Reaction × Reaction) :=
  [ ordered_tuple .Lie .Delay
  , ordered_tuple .Lie .Freeze
  , ordered_tuple .Delay .Freeze ]

/- ===================== Helper lemmas ===================== -/

/-- A vote request only ever touches the tally: catalog, index, last result and
version are untouched by `post_click`. -/
theorem post_click_frame (st : AppState) (t : String) :
    (post_click st t).1.situations = st.situations
  ∧ (post_click st t).1.current_index = st.current_index
  ∧ (post_click st t).1.last_result = st.last_result
  ∧ (post_click st t).1.result_version = st.result_version := by
  rcases h : Reaction.from_str t with _ | r
  · simp [post_click, h]
  · rcases r <;> simp [post_click, h]

theorem from_str_lie : Reaction.from_str "lie" = some .Lie := rfl

theorem from_str_delay : Reaction.from_str "delay" = some .Delay := rfl

theorem from_str_freeze : Reaction.from_str "freeze" = some .Freeze := rfl

/-- Counter-level effect of one vote request: each counter grows by the
indicator of its own token. -/
theorem post_click_counts (st : AppState) (t : String) :
    (post_click st t).1.counts.lie = st.counts.lie + (if t = "lie" then 1 else 0)
  ∧ (post_click st t).1.counts.delay = st.counts.delay + (if t = "delay" then 1 else 0)
  ∧ (post_click st t).1.counts.freeze = st.counts.freeze + (if t = "freeze" then 1 else 0) := by
  by_cases h1 : t = "lie"
  · subst h1; simp [post_click, from_str_lie]
  · by_cases h2 : t = "delay"
    · subst h2; simp [post_click, from_str_delay]
    · by_cases h3 : t = "freeze"
      · subst h3; simp [post_click, from_str_freeze]
      · have h : Reaction.from_str t = none := by
          simp [Reaction.from_str, h1, h2, h3]
        simp [post_click, h, h1, h2, h3]

/-- Tally counters after a run of vote requests starting from any state. -/
theorem applyClicks_counts (ts : List String) (st : AppState) :
    (applyClicks st ts).counts.lie = st.counts.lie + ts.countP (fun t => t == "lie")
  ∧ (applyClicks st ts).counts.delay = st.counts.delay + ts.countP (fun t => t == "delay")
  ∧ (applyClicks st ts).counts.freeze = st.counts.freeze + ts.countP (fun t => t == "freeze") := by
  induction ts generalizing st with
  | nil => simp [applyClicks]
  | cons t ts ih =>
    obtain ⟨h1, h2, h3⟩ := ih (post_click st t).1
    obtain ⟨c1, c2, c3⟩ := post_click_counts st t
    have hstep : applyClicks st (t :: ts) = applyClicks (post_click st t).1 ts := rfl
    rw [hstep]
    refine ⟨?_, ?_, ?_⟩
    · rw [h1, c1, List.countP_cons]
      by_cases ht : t = "lie" <;> simp [ht] <;> omega
    · rw [h2, c2, List.countP_cons]
      by_cases ht : t = "delay" <;> simp [ht] <;> omega
    · rw [h3, c3, List.countP_cons]
      by_cases ht : t = "freeze" <;> simp [ht] <;> omega

theorem sortPairs_perm (l : List (Nat × Nat)) : (sortPairs l).Perm l :=
  List.perm_insertionSort pairBefore l

theorem sortPairs_pairwise (l : List (Nat × Nat)) : (sortPairs l).Pairwise pairBefore :=
  List.sorted_insertionSort pairBefore l

/-- The strict ranking order of the resolver: strictly larger count first, and
among equal counts the strictly smaller priority index first. -/
def rankBefore (x y : Nat × Nat) : Prop :=
  y.1 < x.1 ∨ (x.1 = y.1 ∧ x.2 < y.2)

/-- The tags of the sorted tally pairs stay pairwise distinct. -/
theorem sortPairs_tally_snd_pairwise (c : Tally) :
    (sortPairs (tallyPairs c)).Pairwise (fun a b => a.2 ≠ b.2) := by
  have hp := sortPairs_perm (tallyPairs c)
  have h0 : ((tallyPairs c).map Prod.snd).Nodup := by
    simp [tallyPairs]
  have hnd : ((sortPairs (tallyPairs c)).map Prod.snd).Nodup :=
    ((hp.map Prod.snd).symm).nodup h0
  exact List.pairwise_map.mp hnd

/-- The sorted tally pairs are strictly ranked: count descending, ties by
ascending index. -/
theorem sortPairs_tally_strict (c : Tally) :
    (sortPairs (tallyPairs c)).Pairwise rankBefore := by
  have hs := sortPairs_pairwise (tallyPairs c)
  have hd := sortPairs_tally_snd_pairwise c
  refine (hs.and hd).imp ?_
  intro a b hab
  simp only [pairBefore] at hab
  simp only [rankBefore]
  omega

/-- Every element of the sorted tally pairs carries a tag below 3. -/
theorem sortPairs_tally_snd_lt (c : Tally) :
    ∀ p ∈ sortPairs (tallyPairs c), p.2 < 3 := by
  intro p hp
  have hm : p ∈ tallyPairs c := (sortPairs_perm (tallyPairs c)).mem_iff.mp hp
  simp only [tallyPairs, List.mem_cons, List.mem_singleton] at hm
  rcases hm with h | h | h | h <;> simp_all

theorem idx_to_reaction_inj (i j : Nat) (hi : i < 3) (hj : j < 3) (hij : i ≠ j) :
    idx_to_reaction i ≠ idx_to_reaction j := by
  interval_cases i <;> interval_cases j <;> simp_all [idx_to_reaction]

/-- The two strategies returned by `top_two` are always distinct. -/
theorem top_two_ne (c : Tally) : (top_two c).1 ≠ (top_two c).2 := by
  have hp := sortPairs_perm (tallyPairs c)
  have hlen : (sortPairs (tallyPairs c)).length = 3 := by
    rw [hp.length_eq]; rfl
  obtain ⟨p, q, r, hL⟩ := List.length_eq_three.mp hlen
  have hnd := sortPairs_tally_snd_pairwise c
  rw [hL] at hnd
  have hne : p.2 ≠ q.2 := by
    have := List.pairwise_cons.mp hnd
    exact this.1 q (by simp)
  have hp3 : p.2 < 3 := sortPairs_tally_snd_lt c p (by rw [hL]; simp)
  have hq3 : q.2 < 3 := sortPairs_tally_snd_lt c q (by rw [hL]; simp)
  have h0 : ((sortPairs (tallyPairs c)).getD 0 (0, 0)) = p := by rw [hL]; rfl
  have h1 : ((sortPairs (tallyPairs c)).getD 1 (0, 0)) = q := by rw [hL]; rfl
  show idx_to_reaction ((sortPairs (tallyPairs c)).getD 0 (0, 0)).2
      ≠ idx_to_reaction ((sortPairs (tallyPairs c)).getD 1 (0, 0)).2
  rw [h0, h1]
  exact idx_to_reaction_inj p.2 q.2 hp3 hq3 hne

/- ===================== Claim theorems ===================== -/

/-- C1: `top_two` ranks the three strategies by count descending with ties
broken by ascending fixed priority (the sorted pair list is a permutation of
the tagged tally, strictly ordered by `rankBefore`, and `top_two` returns the
reactions of its first two entries, which are always distinct), and
`admin_show` resolves the answer at the ordered key of the top-two pair; in
particular counts [2,2,5] resolve to the pair {Lie, Freeze} (ordered key
(Lie, Freeze)), [5,3,1] to {Lie, Delay}, and [0,0,0] to {Lie, Delay}. -/
theorem C1_resolver_ranking :
    (∀ c : Tally,
        (sortPairs (tallyPairs c)).Perm (tallyPairs c)
      ∧ (sortPairs (tallyPairs c)).Pairwise rankBefore
      ∧ top_two c =
          (idx_to_reaction (((sortPairs (tallyPairs c)).getD 0 (0, 0)).2),
           idx_to_reaction (((sortPairs (tallyPairs c)).getD 1 (0, 0)).2))
      ∧ (top_two c).1 ≠ (top_two c).2)
  ∧ (∀ st : AppState,
       (admin_show st).2.answer =
         (answersGet (st.situations.getD st.current_index dfltSituation).answers
            (ordered_tuple (top_two st.counts).1 (top_two st.counts).2)).getD sentinel)
  ∧ ordered_tuple (top_two ⟨2, 2, 5⟩).1 (top_two ⟨2, 2, 5⟩).2 = (Reaction.Lie, Reaction.Freeze)
  ∧ ordered_tuple (top_two ⟨5, 3, 1⟩).1 (top_two ⟨5, 3, 1⟩).2 = (Reaction.Lie, Reaction.Delay)
  ∧ ordered_tuple (top_two ⟨0, 0, 0⟩).1 (top_two ⟨0, 0, 0⟩).2 = (Reaction.Lie, Reaction.Delay) := by
  refine ⟨?_, ?_, by decide, by decide, by decide⟩
  · intro c
    exact ⟨sortPairs_perm (tallyPairs c), sortPairs_tally_strict c, rfl, top_two_ne c⟩
  · intro st
    rfl

/-- C3: every reveal bumps the version by exactly 1 (both in the state and in
the returned snapshot), and two consecutive reveals with nothing in between
return the same answer and the same counts snapshot but strictly increasing
versions. -/
theorem C3_reveal_version :
    ∀ st : AppState,
      (admin_show st).1.result_version = st.result_version + 1
    ∧ (admin_show st).2.version = st.result_version + 1
    ∧ (admin_show (admin_show st).1).2.answer = (admin_show st).2.answer
    ∧ (admin_show (admin_show st).1).2.counts = (admin_show st).2.counts
    ∧ (admin_show st).2.version < (admin_show (admin_show st).1).2.version := by
  intro st
  refine ⟨rfl, rfl, rfl, rfl, ?_⟩
  show st.result_version + 1 < st.result_version + 1 + 1
  omega

/-- C4: each recognized vote token increments exactly its own counter and
leaves every other field of the state unchanged; one vote request never
decreases any counter; and starting from a cleared tally, after any sequence
of vote requests each counter equals the number of requests carrying its
token. -/
theorem C4_vote_tally :
    (∀ st : AppState,
        (post_click st "lie").1 =
          { st with counts := { st.counts with lie := st.counts.lie + 1 } }
      ∧ (post_click st "delay").1 =
          { st with counts := { st.counts with delay := st.counts.delay + 1 } }
      ∧ (post_click st "freeze").1 =
          { st with counts := { st.counts with freeze := st.counts.freeze + 1 } })
  ∧ (∀ (st : AppState) (t : String),
        st.counts.lie ≤ (post_click st t).1.counts.lie
      ∧ st.counts.delay ≤ (post_click st t).1.counts.delay
      ∧ st.counts.freeze ≤ (post_click st t).1.counts.freeze)
  ∧ (∀ (st : AppState) (ts : List String),
        st.counts = { lie := 0, delay := 0, freeze := 0 } →
        (applyClicks st ts).counts.lie = ts.countP (fun t => t == "lie")
      ∧ (applyClicks st ts).counts.delay = ts.countP (fun t => t == "delay")
      ∧ (applyClicks st ts).counts.freeze = ts.countP (fun t => t == "freeze")) := by
  refine ⟨fun st => ⟨rfl, rfl, rfl⟩, ?_, ?_⟩
  · intro st t
    obtain ⟨c1, c2, c3⟩ := post_click_counts st t
    refine ⟨?_, ?_, ?_⟩
    · rw [c1]; exact Nat.le_add_right _ _
    · rw [c2]; exact Nat.le_add_right _ _
    · rw [c3]; exact Nat.le_add_right _ _
  · intro st ts h0
    obtain ⟨h1, h2, h3⟩ := applyClicks_counts ts st
    rw [h0] at h1 h2 h3
    simp only [Nat.zero_add] at h1 h2 h3
    exact ⟨h1, h2, h3⟩

/-- C4 witness: a concrete run from the startup state. -/
theorem C4_vote_tally_witness :
    (applyClicks initState ["lie", "delay", "lie", "xyz", "freeze"]).counts.lie =
        (["lie", "delay", "lie", "xyz", "freeze"]).countP (fun t => t == "lie")
  ∧ (applyClicks initState ["lie", "delay", "lie", "xyz", "freeze"]).counts.delay =
        (["lie", "delay", "lie", "xyz", "freeze"]).countP (fun t => t == "delay")
  ∧ (applyClicks initState ["lie", "delay", "lie", "xyz", "freeze"]).counts.freeze =
        (["lie", "delay", "lie", "xyz", "freeze"]).countP (fun t => t == "freeze") :=
  C4_vote_tally.2.2 initState ["lie", "delay", "lie", "xyz", "freeze"] rfl

/-- C5: a vote whose token matches none of the three recognized identifiers
leaves the whole state unchanged and still returns the success
acknowledgment. -/
theorem C5_bad_token_noop :
    ∀ (st : AppState) (t : String),
      t ≠ "lie" → t ≠ "delay" → t ≠ "freeze" →
      post_click st t = (st, { ok := true }) := by
  intro st t h1 h2 h3
  have h : Reaction.from_str t = none := by
    simp [Reaction.from_str, h1, h2, h3]
  simp [post_click, h]

/-- C5 witness: the unrecognized token "xyz" from the startup state. -/
theorem C5_bad_token_noop_witness :
    post_click initState "xyz" = (initState, { ok := true }) :=
  C5_bad_token_noop initState "xyz" (by decide) (by decide) (by decide)

/-- C6: advance sets the index to (index + 1) mod catalog length; in
particular advancing from the last index wraps to 0. -/
theorem C6_advance_wraps :
    (∀ st : AppState,
       (admin_next st).1.current_index = (st.current_index + 1) % st.situations.length)
  ∧ (∀ st : AppState, 0 < st.situations.length →
       st.current_index = st.situations.length - 1 →
       (admin_next st).1.current_index = 0) := by
  refine ⟨fun st => rfl, ?_⟩
  intro st h hi
  show (st.current_index + 1) % st.situations.length = 0
  rw [hi, Nat.sub_add_cancel h]
  exact Nat.mod_self _

/-- C6 witness: advancing from the last index of the startup catalog. -/
theorem C6_advance_wraps_witness :
    (admin_next { initState with current_index := build_situations.length - 1 }).1.current_index
      = 0 :=
  C6_advance_wraps.2 { initState with current_index := build_situations.length - 1 }
    (by decide) rfl

/-- C7: advance and reset both clear the tally to [0,0,0] and the last result
to absent, and neither changes the version; reset also leaves the current
index unchanged. -/
theorem C7_clear_frame :
    ∀ st : AppState,
      (admin_next st).1.counts = { lie := 0, delay := 0, freeze := 0 }
    ∧ (admin_next st).1.last_result = none
    ∧ (admin_next st).1.result_version = st.result_version
    ∧ (admin_reset st).1.counts = { lie := 0, delay := 0, freeze := 0 }
    ∧ (admin_reset st).1.last_result = none
    ∧ (admin_reset st).1.result_version = st.result_version
    ∧ (admin_reset st).1.current_index = st.current_index :=
  fun _ => ⟨rfl, rfl, rfl, rfl, rfl, rfl, rfl⟩

/-- C8: the catalog-index invariant holds in the startup state and is
preserved by every serialized operation, so the catalog indexing done by
`get_current_situation` and `admin_show` is always in bounds. -/
theorem C8_index_invariant :
    IndexInv initState
  ∧ (∀ s s' : AppState, IndexInv s → Step s s' → IndexInv s') := by
  constructor
  · show 0 < build_situations.length
    decide
  · intro s s' hs hstep
    cases hstep with
    | click t =>
      obtain ⟨hsit, hidx, _, _⟩ := post_click_frame s t
      show (post_click s t).1.current_index < (post_click s t).1.situations.length
      rw [hsit, hidx]
      exact hs
    | reveal => exact hs
    | poll => exact hs
    | current => exact hs
    | next =>
      show (s.current_index + 1) % s.situations.length < s.situations.length
      have hs' : s.current_index < s.situations.length := hs
      exact Nat.mod_lt _ (by omega)
    | reset => exact hs

/-- C8 witness: the invariant at startup, and its preservation across one
concrete advance. -/
theorem C8_index_invariant_witness : IndexInv (admin_next initState).1 :=
  C8_index_invariant.2 initState (admin_next initState).1
    (by show 0 < build_situations.length; decide) (Step.next initState)

/-- C9: every situation of the catalog built at startup maps each of the three
canonical unordered pairs to an answer different from the sentinel (so in
particular every pair is present). -/
theorem C9_catalog_complete :
    build_situations.all
      (fun s => canonicalPairs.all
        (fun k => ((answersGet s.answers k).getD sentinel) != sentinel)) = true := by
  decide

/-- C10: when the current situation's answer map misses the resolved top-two
key, the reveal still succeeds: the answer is the sentinel string, the version
is still bumped by 1, and the result is still stored. -/
theorem C10_lookup_miss_fallback :
    ∀ st : AppState,
      answersGet (st.situations.getD st.current_index dfltSituation).answers
          (ordered_tuple (top_two st.counts).1 (top_two st.counts).2) = none →
        (admin_show st).2.answer = sentinel
      ∧ (admin_show st).1.result_version = st.result_version + 1
      ∧ (admin_show st).1.last_result = some (admin_show st).2 := by
  intro st h
  refine ⟨?_, rfl, rfl⟩
  show (answersGet (st.situations.getD st.current_index dfltSituation).answers
          (ordered_tuple (top_two st.counts).1 (top_two st.counts).2)).getD sentinel
       = sentinel
  rw [h]
  rfl

/-- A state whose only situation has an empty answer map, for the C10
witness. -/
def missState : AppState :=
  { situations := [{ title := "t", description := "d", answers := [] }]
    current_index := 0
    counts := { lie := 0, delay := 0, freeze := 0 }
    last_result := none
    result_version := 0 }

/-- C10 witness: a reveal over an empty answer map. -/
theorem C10_lookup_miss_fallback_witness :
    (admin_show missState).2.answer = sentinel
  ∧ (admin_show missState).1.result_version = missState.result_version + 1
  ∧ (admin_show missState).1.last_result = some (admin_show missState).2 :=
  C10_lookup_miss_fallback missState (by decide)

end Game
